import Mathlib

/-!
Verification development for the WhatsApp bridge service: a shallow
embedding of its connection-lifecycle handling (`whatsapp.ts`), message
classification and routing (`message-handler`), voice transcription
adapter (`audio-handler`) and orchestrator forwarder (`bridge.ts`),
together with theorems about the routed effect traces.

External calls (media download, transcription backend, orchestrator
backend, outbound send) are modelled by oracle values describing the
outcome of the single call the code makes; the embedded functions
record the calls they issue as an explicit effect trace.
-/

set_option linter.unusedVariables false
set_option linter.unnecessarySeqFocus false

/-- JID reserved for status broadcasts; such messages are filtered out
(`message-handler`, `STATUS_BROADCAST`). -/
def STATUS_BROADCAST : String := "status@broadcast"

/-- The Baileys SDK close-reason code for an explicit logout
(`DisconnectReason.loggedOut`, numerically 401), compared against in
`whatsapp.ts` line 63. -/
def DisconnectReason.loggedOut : Nat := 401

/-- JS truthiness of a string-or-undefined value: `undefined` and the
empty string are falsy, every other string is truthy. -/
def truthy : Option String → Bool
  | none => false
  | some s => s ≠ ""

/-- The JS `||` operator restricted to string-or-undefined values, as in
`a || b`: yields `a` when `a` is truthy, otherwise `b`. -/
def jsOr (a b : Option String) : Option String :=
  if truthy a then a else b

/-- Opaque handle standing for a Baileys `WASocket` instance; only its
identity matters to the lifecycle logic. -/
abbrev Session := Nat

/-- The module-level mutable state of `whatsapp.ts`: the process-wide
`socket` variable, plus the list of reconnect delays (ms) scheduled via
`setTimeout` (the code itself only ever appends a single 3000 ms entry). -/
structure ConnState where
  socket : Option Session
  pendingReconnects : List Nat
  deriving Repr, DecidableEq

/-- The fields of a Baileys `connection.update` event that
`whatsapp.ts` reads: the `connection` string, the Boom status code
extracted from `lastDisconnect` (absent when no error is attached), and
the `qr` string. -/
structure ConnectionUpdate where
  connection : Option String
  statusCode : Option Nat
  qr : Option String
  deriving Repr, DecidableEq

/-- The `connection === "close"` branch of the `connection.update`
handler (`whatsapp.ts` lines 61-83): when the status code differs from
`DisconnectReason.loggedOut` (JS `!==`, so a missing code also
reconnects), schedule one `connectWhatsApp()` retry after 3000 ms and
leave the socket variable untouched; on logout, set the socket variable
to null and schedule nothing. -/
def onConnectionClose (st : ConnState) (statusCode : Option Nat) : ConnState :=
  let shouldReconnect : Bool := statusCode != some DisconnectReason.loggedOut
  if shouldReconnect then
    { st with pendingReconnects := st.pendingReconnects ++ [3000] }
  else
    { st with socket := none }

/-- The whole `connection.update` handler registered in
`connectWhatsApp` (`whatsapp.ts` lines 54-89): the `qr` branch only
logs; the `close` branch is `onConnectionClose`; the `open` branch sets
the process-wide socket to the handler's captured `sock`. -/
def onConnectionUpdate (sock : Session) (st : ConnState) (u : ConnectionUpdate) : ConnState :=
  let afterClose :=
    if u.connection = some "close" then onConnectionClose st u.statusCode else st
  if u.connection = some "open" then { afterClose with socket := some sock } else afterClose

/-- One lifecycle event touching the process-wide socket variable:
`connectDone s` is `connectWhatsApp` returning (line 91 `socket = sock`),
and `update sock u` is the `connection.update` handler firing for the
socket `sock` it was registered on. -/
inductive LifecycleEvent where
  | connectDone (s : Session)
  | update (sock : Session) (u : ConnectionUpdate)
  deriving Repr, DecidableEq

/-- Effect of one lifecycle event on the module state of `whatsapp.ts`. -/
def lifecycleStep (st : ConnState) : LifecycleEvent → ConnState
  | .connectDone s => { st with socket := some s }
  | .update sock u => onConnectionUpdate sock st u

/-- Initial module state: `let socket: WASocket | null = null` and no
timer outstanding. -/
def initialConnState : ConnState := { socket := none, pendingReconnects := [] }

/-- The module state after a sequence of lifecycle events, starting from
process start. -/
def runLifecycle (evs : List LifecycleEvent) : ConnState :=
  evs.foldl lifecycleStep initialConnState

/-- `getSocket` (`whatsapp.ts` lines 18-20): a read of the process-wide
socket variable, returned together with the (unchanged) module state. -/
def getSocket (st : ConnState) : Option Session × ConnState :=
  (st.socket, st)

/-- Whether a lifecycle event assigns a (non-null) handle to the
process-wide socket variable. -/
def setsHandle : LifecycleEvent → Bool
  | .connectDone _ => true
  | .update _ u => u.connection == some "open"

/-- Whether a lifecycle event is a terminal-logout close, which nulls
the process-wide socket variable. -/
def nullsHandle : LifecycleEvent → Bool
  | .connectDone _ => false
  | .update _ u =>
    u.connection == some "close" && u.statusCode == some DisconnectReason.loggedOut

/-- Spec-side predicate, on the REVERSED event history: the handle was
never set, or was nulled by terminal logout with no set after it. Stated
from the spec sentence "null iff never connected or permanently logged
out"; compared against `runLifecycle` in the C8 theorem. -/
def neverSetOrLoggedOut : List LifecycleEvent → Bool
  | [] => true
  | e :: rest =>
    if setsHandle e then false
    else if nullsHandle e then true
    else neverSetOrLoggedOut rest

/-- JS `String.prototype.endsWith` (as used in `jid.endsWith("@g.us")`):
a plain suffix test, here on the character lists. -/
def strEndsWith (s suff : String) : Bool :=
  suff.data.isSuffixOf s.data

/-- JS `String.prototype.trim` (as used on the transcription response's
`text` field): strip whitespace from both ends, here on the character
list. -/
def jsTrim (s : String) : String :=
  ⟨((s.data.dropWhile Char.isWhitespace).reverse.dropWhile Char.isWhitespace).reverse⟩

/-- The subset of Baileys `proto.IMessageKey` read by the bridge:
`remoteJid`, `fromMe`, `participant`. -/
structure MessageKey where
  remoteJid : Option String
  fromMe : Bool
  participant : Option String
  deriving Repr, DecidableEq

/-- `extendedTextMessage` payload: only its `text` field is read. -/
structure ExtendedTextMessage where
  text : Option String
  deriving Repr, DecidableEq

/-- The subset of the Baileys `message` object read by the bridge: the
plain `conversation` text, the `extendedTextMessage` and the
`audioMessage` (whose contents the bridge never inspects directly — the
audio bytes come from the media-download call — so it is opaque here). -/
structure MessageContent where
  conversation : Option String
  extendedTextMessage : Option ExtendedTextMessage
  audioMessage : Option Unit
  deriving Repr, DecidableEq

/-- The subset of `proto.IWebMessageInfo` read by the bridge. -/
structure WebMessageInfo where
  key : MessageKey
  message : Option MessageContent
  deriving Repr, DecidableEq

/-- The JSON payload `forwardToOpenClaw` POSTs to the orchestrator
(`bridge.ts`): `{channel, sender_id, content}`. -/
structure BridgePayload where
  channel : String
  sender_id : String
  content : String
  deriving Repr, DecidableEq

/-- Orchestrator reply body (`BridgeResponse` in `bridge.ts`): optional
`text` and optional `error` string (the `metadata` mapping is never read
by the bridge and is omitted). -/
structure BridgeResponse where
  text : Option String
  error : Option String
  deriving Repr, DecidableEq

/-- One observable side effect issued while processing a message:
a media-download attempt, a POST to the transcription backend, a forward
POST to the orchestrator carrying its payload, or an outbound
`sendMessage` to a conversation. -/
inductive Effect where
  | mediaDownload
  | transcribePost
  | forward (payload : BridgePayload)
  | send (jid text : String)
  deriving Repr, DecidableEq

/-- Outcomes of the single external call each handler makes, fixed ahead
of time: `download` is `downloadMediaMessage` (throw, a falsy buffer, or
bytes); `transcribe` is the transcription POST (throw, or the JS value
of `response.data?.text`); `orch` is the orchestrator POST (throw, or
the parsed body); `sendRes` is `sock.sendMessage` (throw or succeed). -/
structure Oracles where
  download : Except Unit (Option (List Nat))
  transcribe : Except Unit (Option String)
  orch : Except Unit BridgeResponse
  sendRes : Except Unit Unit
  deriving Repr

/-- `handleAudioMessage` (`audio-handler`): download the audio buffer
(any throw is caught and yields null); a falsy or empty buffer yields
null before any backend call; otherwise POST to the transcription
backend (a throw yields null); trim `response.data?.text` and return it
unless falsy. Returns the effect trace paired with the
`string | null` result. -/
def handleAudioMessage (download : Except Unit (Option (List Nat)))
    (transcribe : Except Unit (Option String)) : List Effect × Option String :=
  match download with
  | .error _ => ([Effect.mediaDownload], none)
  | .ok none => ([Effect.mediaDownload], none)
  | .ok (some buffer) =>
    if buffer.length = 0 then ([Effect.mediaDownload], none)
    else
      match transcribe with
      | .error _ => ([Effect.mediaDownload, Effect.transcribePost], none)
      | .ok dataText =>
        let transcribedText := dataText.map jsTrim
        if truthy transcribedText then
          ([Effect.mediaDownload, Effect.transcribePost], transcribedText)
        else
          ([Effect.mediaDownload, Effect.transcribePost], none)

/-- `forwardToOpenClaw` (`bridge.ts`): builds the JSON payload
`{channel: "whatsapp", sender_id, content}`, POSTs it once, returns the
parsed body on success and null on any error (every throw is caught).
Returns the payload it built paired with the `BridgeResponse | null`
result. -/
def forwardToOpenClaw (senderId content : String)
    (orch : Except Unit BridgeResponse) : BridgePayload × Option BridgeResponse :=
  let payload : BridgePayload := { channel := "whatsapp", sender_id := senderId, content := content }
  match orch with
  | .ok resp => (payload, some resp)
  | .error _ => (payload, none)

/-- `const textContent = msg.message?.conversation ||
msg.message?.extendedTextMessage?.text` (`message-handler` lines 65-67). -/
def textContentOf (msg : WebMessageInfo) : Option String :=
  jsOr (msg.message.bind MessageContent.conversation)
    ((msg.message.bind MessageContent.extendedTextMessage).bind ExtendedTextMessage.text)

/-- `const senderId = isGroup ? msg.key.participant || jid : jid`
(`message-handler` lines 49-50); JS `||` makes an empty-string
participant fall back to the conversation id. -/
def senderIdOf (msg : WebMessageInfo) : String :=
  let jid := msg.key.remoteJid.getD ""
  let isGroup := strEndsWith jid "@g.us"
  if isGroup then
    (if truthy msg.key.participant then msg.key.participant.getD "" else jid)
  else jid

/-- The group prefix `"[group:<jid>] "` used on both the text and voice
paths, empty for direct conversations. -/
def groupTagOf (jid : String) : String :=
  if strEndsWith jid "@g.us" then "[group:" ++ jid ++ "] " else ""

/-- The reply step shared verbatim by the text path (lines 78-82) and
the voice path (lines 103-107): `const response = await
forwardToOpenClaw(senderId, fullContent); if (response?.text) { await
sock.sendMessage(jid, { text: response.text }); }`. Takes the pair
returned by `forwardToOpenClaw`; records the forward effect and, when
the reply text is truthy, the attempted send (which throws exactly when
`sock.sendMessage` does). -/
def deliverReply (o : Oracles) (jid : String)
    (fwd : BridgePayload × Option BridgeResponse) : List Effect × Option Unit :=
  match fwd.2 with
  | some response =>
    if truthy response.text then
      match o.sendRes with
      | .ok _ => ([Effect.forward fwd.1, Effect.send jid (response.text.getD "")], none)
      | .error _ => ([Effect.forward fwd.1, Effect.send jid (response.text.getD "")], some ())
    else ([Effect.forward fwd.1], none)
  | none => ([Effect.forward fwd.1], none)

/-- `processMessage` (`message-handler` lines 31-120): apply the filters
in order (falsy `remoteJid`, status broadcast, `fromMe`), then the text
path, then the voice path, then drop. Returns the effect trace paired
with `some ()` exactly when an exception escapes `processMessage` itself
(only `sock.sendMessage` can throw; the forwarder and audio handler
catch their own errors). -/
def processMessage (o : Oracles) (msg : WebMessageInfo) : List Effect × Option Unit :=
  match msg.key.remoteJid with
  | none => ([], none)
  | some jid =>
    if jid = "" then ([], none)
    else if jid = STATUS_BROADCAST then ([], none)
    else if msg.key.fromMe then ([], none)
    else
      let senderId := senderIdOf msg
      let textContent := textContentOf msg
      if truthy textContent then
        let fullContent := groupTagOf jid ++ textContent.getD ""
        deliverReply o jid (forwardToOpenClaw senderId fullContent o.orch)
      else
        match msg.message.bind MessageContent.audioMessage with
        | some _ =>
          let audio := handleAudioMessage o.download o.transcribe
          if truthy audio.2 then
            let fullContent := groupTagOf jid ++ "[voice] " ++ audio.2.getD ""
            let rep := deliverReply o jid (forwardToOpenClaw senderId fullContent o.orch)
            (audio.1 ++ rep.1, rep.2)
          else (audio.1, none)
        | none => ([], none)

/-- The argument of a `messages.upsert` event. -/
structure MessagesUpsert where
  messages : List WebMessageInfo
  type : String
  deriving Repr, DecidableEq

/-- The `messages.upsert` handler installed by `registerMessageHandler`
(`message-handler` lines 14-29): non-`"notify"` batches are dropped;
otherwise each message is processed inside its own try/catch, so a throw
from one message is logged and the loop continues. Returns the
concatenated effect trace of the batch. -/
def handleUpsert (o : Oracles) (up : MessagesUpsert) : List Effect :=
  if up.type ≠ "notify" then []
  else (up.messages.map (fun m => (processMessage o m).1)).flatten

/-- The forward payloads appearing in an effect trace, in order. -/
def forwardsOf (tr : List Effect) : List BridgePayload :=
  tr.filterMap fun e =>
    match e with
    | .forward p => some p
    | _ => none

/-- The outbound sends (conversation id, text) appearing in an effect
trace, in order. -/
def sendsOf (tr : List Effect) : List (String × String) :=
  tr.filterMap fun e =>
    match e with
    | .send j t => some (j, t)
    | _ => none

/-- Oracles for a fully successful run: non-empty download, transcript
" hi ", orchestrator reply "ok", successful send. -/
def sampleOracles : Oracles :=
  { download := .ok (some [1, 2])
    transcribe := .ok (some " hi ")
    orch := .ok { text := some "ok", error := none }
    sendRes := .ok () }

/-- Oracles whose outbound send throws, with an orchestrator reply
present so the send is attempted. -/
def throwingOracles : Oracles :=
  { download := .ok none
    transcribe := .ok none
    orch := .ok { text := some "reply", error := none }
    sendRes := .error () }

/-! ## Helper lemmas about traces -/

theorem handleAudioMessage_trace (d : Except Unit (Option (List Nat)))
    (b : Except Unit (Option String)) :
    (handleAudioMessage d b).1 = [Effect.mediaDownload] ∨
    (handleAudioMessage d b).1 = [Effect.mediaDownload, Effect.transcribePost] := by
  rcases d with _ | _ | bytes
  · exact Or.inl rfl
  · exact Or.inl rfl
  · by_cases hb : bytes.length = 0
    · simp [handleAudioMessage, hb]
    · rcases b with _ | t
      · simp [handleAudioMessage, hb]
      · by_cases ht : truthy (t.map jsTrim) <;> simp [handleAudioMessage, hb, ht]

theorem forwardsOf_handleAudioMessage (d : Except Unit (Option (List Nat)))
    (b : Except Unit (Option String)) :
    forwardsOf (handleAudioMessage d b).1 = [] := by
  rcases handleAudioMessage_trace d b with h | h <;> simp [h, forwardsOf]

theorem sendsOf_handleAudioMessage (d : Except Unit (Option (List Nat)))
    (b : Except Unit (Option String)) :
    sendsOf (handleAudioMessage d b).1 = [] := by
  rcases handleAudioMessage_trace d b with h | h <;> simp [h, sendsOf]

theorem forwardsOf_deliverReply (o : Oracles) (jid : String)
    (fwd : BridgePayload × Option BridgeResponse) :
    forwardsOf (deliverReply o jid fwd).1 = [fwd.1] := by
  rcases fwd with ⟨p, _ | r⟩
  · simp [deliverReply, forwardsOf]
  · by_cases ht : truthy r.text
    · rcases hs : o.sendRes with _ | _ <;> simp [deliverReply, ht, hs, forwardsOf]
    · simp [deliverReply, ht, forwardsOf]

theorem sendsOf_deliverReply (o : Oracles) (jid : String)
    (fwd : BridgePayload × Option BridgeResponse) :
    sendsOf (deliverReply o jid fwd).1 =
      (match fwd.2 with
       | some r => if truthy r.text then [(jid, r.text.getD "")] else []
       | none => []) := by
  rcases fwd with ⟨p, _ | r⟩
  · simp [deliverReply, sendsOf]
  · by_cases ht : truthy r.text
    · rcases hs : o.sendRes with _ | _ <;> simp [deliverReply, ht, hs, sendsOf]
    · simp [deliverReply, ht, sendsOf]

theorem forwardsOf_append (a b : List Effect) :
    forwardsOf (a ++ b) = forwardsOf a ++ forwardsOf b := by
  simp [forwardsOf]

theorem sendsOf_append (a b : List Effect) :
    sendsOf (a ++ b) = sendsOf a ++ sendsOf b := by
  simp [sendsOf]

theorem runLifecycle_append (evs : List LifecycleEvent) (e : LifecycleEvent) :
    runLifecycle (evs ++ [e]) = lifecycleStep (runLifecycle evs) e := by
  simp [runLifecycle, List.foldl_append]

theorem socket_null_iff (evs : List LifecycleEvent) :
    (runLifecycle evs).socket = none ↔ neverSetOrLoggedOut evs.reverse = true := by
  induction evs using List.reverseRecOn with
  | nil => simp [runLifecycle, initialConnState, neverSetOrLoggedOut]
  | append_singleton evs e ih =>
    rw [runLifecycle_append, List.reverse_append]
    simp only [List.reverse_singleton, List.singleton_append]
    cases e with
    | connectDone s => simp [lifecycleStep, neverSetOrLoggedOut, setsHandle]
    | update sock u =>
      by_cases hopen : u.connection = some "open"
      · simp [lifecycleStep, onConnectionUpdate, hopen, neverSetOrLoggedOut, setsHandle]
      · by_cases hclose : u.connection = some "close"
        · by_cases hlog : u.statusCode = some DisconnectReason.loggedOut
          · simp [lifecycleStep, onConnectionUpdate, hopen, hclose, hlog, onConnectionClose,
              neverSetOrLoggedOut, setsHandle, nullsHandle]
          · simp [lifecycleStep, onConnectionUpdate, hopen, hclose, hlog, onConnectionClose,
              neverSetOrLoggedOut, setsHandle, nullsHandle, ih]
        · simp [lifecycleStep, onConnectionUpdate, hopen, hclose, neverSetOrLoggedOut,
            setsHandle, nullsHandle, ih]

/-- Claim C1: on a connection-close event with a non-logout reason code,
exactly one reconnect (one `connectWhatsApp` call) is scheduled, after a
fixed 3000 ms delay, and the process-wide socket variable is left as it
was (not nulled); on a close with the logout reason code, the socket
variable is set to null and no reconnect is scheduled. -/
theorem c1_close_reconnect_decision (st : ConnState) (sock : Session) (u : ConnectionUpdate)
    (hclose : u.connection = some "close") :
    (u.statusCode ≠ some DisconnectReason.loggedOut →
       (onConnectionUpdate sock st u).pendingReconnects = st.pendingReconnects ++ [3000] ∧
       (onConnectionUpdate sock st u).socket = st.socket) ∧
    (u.statusCode = some DisconnectReason.loggedOut →
       (onConnectionUpdate sock st u).socket = none ∧
       (onConnectionUpdate sock st u).pendingReconnects = st.pendingReconnects) := by
  have hne : (some "close" : Option String) ≠ some "open" := by decide
  constructor
  · intro h
    simp [onConnectionUpdate, hclose, hne, onConnectionClose, h]
  · intro h
    simp [onConnectionUpdate, hclose, hne, onConnectionClose, h]

theorem c1_witness :
    (onConnectionUpdate 7 ⟨some 5, []⟩ ⟨some "close", some 428, none⟩).pendingReconnects = [3000] ∧
    (onConnectionUpdate 7 ⟨some 5, []⟩ ⟨some "close", some 428, none⟩).socket = some 5 ∧
    (onConnectionUpdate 7 ⟨some 5, []⟩ ⟨some "close", some 401, none⟩).socket = none ∧
    (onConnectionUpdate 7 ⟨some 5, []⟩ ⟨some "close", some 401, none⟩).pendingReconnects = [] := by
  have h1 := (c1_close_reconnect_decision ⟨some 5, []⟩ 7 ⟨some "close", some 428, none⟩ rfl).1
    (by decide)
  have h2 := (c1_close_reconnect_decision ⟨some 5, []⟩ 7 ⟨some "close", some 401, none⟩ rfl).2 rfl
  exact ⟨h1.1, h1.2, h2.1, h2.2⟩

/-- Claim C8: reading the process-wide session handle via `getSocket`
does not mutate the module state, so any number of reads with no
intervening lifecycle event return the same handle identity; and after
any sequence of lifecycle events the read is null exactly when the
handle was never set or was last nulled by a terminal logout. -/
theorem c8_getSocket_idempotent_null_iff :
    (∀ st : ConnState, getSocket st = (st.socket, st)) ∧
    (∀ st : ConnState, (getSocket (getSocket st).2).1 = (getSocket st).1) ∧
    (∀ evs : List LifecycleEvent,
       (getSocket (runLifecycle evs)).1 = none ↔ neverSetOrLoggedOut evs.reverse = true) := by
  refine ⟨fun st => rfl, fun st => rfl, fun evs => ?_⟩
  simpa [getSocket] using socket_null_iff evs

/-- Claim C2: an inbound batch whose type is not `"notify"` produces no
effects at all; and a message whose conversation id is falsy (missing or
empty), or equals `"status@broadcast"`, or whose `fromMe` flag is set,
is dropped with zero side effects — no transcription, no forward, no
send, and no escaping exception. -/
theorem c2_filtered_events_no_side_effects :
    (∀ (o : Oracles) (up : MessagesUpsert), up.type ≠ "notify" → handleUpsert o up = []) ∧
    (∀ (o : Oracles) (msg : WebMessageInfo),
       truthy msg.key.remoteJid = false ∨ msg.key.remoteJid = some STATUS_BROADCAST ∨
         msg.key.fromMe = true →
       processMessage o msg = ([], none)) := by
  constructor
  · intro o up h
    simp [handleUpsert, h]
  · intro o msg h
    rcases hm : msg.key.remoteJid with _ | jid
    · simp [processMessage, hm]
    · rcases h with h | h | h
      · rw [hm] at h
        simp [truthy] at h
        simp [processMessage, hm, h]
      · rw [hm] at h
        injection h with h
        subst h
        simp [processMessage, hm, STATUS_BROADCAST]
      · by_cases h1 : jid = "" <;> by_cases h2 : jid = STATUS_BROADCAST <;>
          simp [processMessage, hm, h, h1, h2]

theorem c2_witness :
    handleUpsert sampleOracles
      ⟨[⟨⟨some "1@s.net", false, none⟩, some ⟨some "hello", none, none⟩⟩], "append"⟩ = [] ∧
    processMessage sampleOracles
      ⟨⟨some "status@broadcast", false, none⟩, some ⟨some "hello", none, none⟩⟩ = ([], none) ∧
    processMessage sampleOracles
      ⟨⟨some "1@s.net", true, none⟩, some ⟨some "hello", none, none⟩⟩ = ([], none) := by
  refine ⟨c2_filtered_events_no_side_effects.1 sampleOracles _ (by decide),
    c2_filtered_events_no_side_effects.2 sampleOracles _ (Or.inr (Or.inl rfl)),
    c2_filtered_events_no_side_effects.2 sampleOracles _ (Or.inr (Or.inr rfl))⟩

/-- Claim C4 counterexample: in the group conversation `"123@g.us"` with
the participant id present but equal to the empty string, the resolved
sender is the conversation id, not the participant id — JS `||` treats
the present-but-empty participant as absent, refuting the claim that a
present participant id is always the resolved sender. -/
theorem c4_counterexample :
    strEndsWith "123@g.us" "@g.us" = true ∧
    (⟨⟨some "123@g.us", false, some ""⟩, none⟩ : WebMessageInfo).key.participant = some "" ∧
    senderIdOf ⟨⟨some "123@g.us", false, some ""⟩, none⟩ = "123@g.us" ∧
    senderIdOf ⟨⟨some "123@g.us", false, some ""⟩, none⟩ ≠ "" := by
  refine ⟨by decide, rfl, by decide, by decide⟩

/-- Claim C4 (amended): for a group conversation id, the resolved sender
is the participant id when it is present and non-empty, and the
conversation id when the participant id is absent or empty; for a direct
conversation the resolved sender is the conversation id. -/
theorem c4_sender_resolution (msg : WebMessageInfo) (jid : String)
    (hjid : msg.key.remoteJid = some jid) :
    (strEndsWith jid "@g.us" = true →
       (∀ p, msg.key.participant = some p → p ≠ "" → senderIdOf msg = p) ∧
       (msg.key.participant = none ∨ msg.key.participant = some "" → senderIdOf msg = jid)) ∧
    (strEndsWith jid "@g.us" = false → senderIdOf msg = jid) := by
  refine ⟨fun hg => ⟨fun p hp hpne => ?_, fun hp => ?_⟩, fun hg => ?_⟩
  · simp [senderIdOf, hjid, hg, hp, truthy, hpne]
  · rcases hp with hp | hp <;> simp [senderIdOf, hjid, hg, hp, truthy]
  · simp [senderIdOf, hjid, hg]

theorem c4_witness :
    senderIdOf ⟨⟨some "55@g.us", false, some "p1@s.net"⟩, none⟩ = "p1@s.net" ∧
    senderIdOf ⟨⟨some "55@g.us", false, none⟩, none⟩ = "55@g.us" ∧
    senderIdOf ⟨⟨some "a@s.net", false, some "p1@s.net"⟩, none⟩ = "a@s.net" := by
  refine ⟨((c4_sender_resolution _ "55@g.us" rfl).1 (by decide)).1 "p1@s.net" rfl (by decide),
    ((c4_sender_resolution _ "55@g.us" rfl).1 (by decide)).2 (Or.inl rfl),
    (c4_sender_resolution _ "a@s.net" rfl).2 (by decide)⟩

/-- Claim C7: within a `"notify"` batch, a message whose processing
throws does not abort the rest of the batch: the batch trace decomposes
as the traces of the earlier messages, the throwing message's own trace,
and the full traces of all later messages, each produced in its own
try/catch boundary. -/
theorem c7_batch_failure_isolation (o : Oracles) (l1 l2 : List WebMessageInfo)
    (m : WebMessageInfo) (hthrow : (processMessage o m).2 = some ()) :
    handleUpsert o ⟨l1 ++ m :: l2, "notify"⟩ =
      handleUpsert o ⟨l1, "notify"⟩ ++ (processMessage o m).1 ++
        handleUpsert o ⟨l2, "notify"⟩ := by
  simp [handleUpsert]

theorem c7_witness :
    handleUpsert throwingOracles
      ⟨[⟨⟨some "1@s.net", false, none⟩, some ⟨some "hi", none, none⟩⟩,
        ⟨⟨some "2@s.net", false, none⟩, some ⟨some "yo", none, none⟩⟩], "notify"⟩ =
      [Effect.forward ⟨"whatsapp", "1@s.net", "hi"⟩, Effect.send "1@s.net" "reply",
       Effect.forward ⟨"whatsapp", "2@s.net", "yo"⟩, Effect.send "2@s.net" "reply"] := by
  have h := c7_batch_failure_isolation throwingOracles []
    [⟨⟨some "2@s.net", false, none⟩, some ⟨some "yo", none, none⟩⟩]
    ⟨⟨some "1@s.net", false, none⟩, some ⟨some "hi", none, none⟩⟩ (by decide)
  exact h.trans (by decide)

theorem forwardToOpenClaw_payload (sid content : String) (r : Except Unit BridgeResponse) :
    (forwardToOpenClaw sid content r).1 = ⟨"whatsapp", sid, content⟩ := by
  cases r <;> rfl

theorem deliverReply_of_none (o : Oracles) (jid : String)
    (fwd : BridgePayload × Option BridgeResponse) (h : fwd.2 = none) :
    deliverReply o jid fwd = ([Effect.forward fwd.1], none) := by
  rcases fwd with ⟨p, f2⟩
  cases f2
  · rfl
  · simp at h

theorem deliverReply_trace (o : Oracles) (jid : String)
    (fwd : BridgePayload × Option BridgeResponse) :
    (deliverReply o jid fwd).1 = [Effect.forward fwd.1] ∨
    ∃ t, (deliverReply o jid fwd).1 = [Effect.forward fwd.1, Effect.send jid t] := by
  rcases fwd with ⟨p, _ | r⟩
  · exact Or.inl rfl
  · by_cases ht : truthy r.text
    · rcases hs : o.sendRes with _ | _ <;>
        exact Or.inr ⟨r.text.getD "", by simp [deliverReply, ht, hs]⟩
    · exact Or.inl (by simp [deliverReply, ht])

/-- Claim C3: for an event passing the filters, the content forwarded to
the orchestrator on the text path with body `B` is the group prefix
`"[group:<jid>] "` (empty for direct conversations) followed by `B`, and
on the voice path with non-empty transcript `T` it is the group prefix
followed by `"[voice] "` and `T`; in each case exactly one forward is
issued, carrying the resolved sender id. -/
theorem c3_forwarded_content (o : Oracles) (msg : WebMessageInfo) (jid : String)
    (hjid : msg.key.remoteJid = some jid) (hne : jid ≠ "") (hbc : jid ≠ STATUS_BROADCAST)
    (hfm : msg.key.fromMe = false) :
    (∀ body, textContentOf msg = some body → body ≠ "" →
       forwardsOf (processMessage o msg).1 =
         [⟨"whatsapp", senderIdOf msg, groupTagOf jid ++ body⟩]) ∧
    (∀ t, truthy (textContentOf msg) = false →
       msg.message.bind MessageContent.audioMessage = some () →
       (handleAudioMessage o.download o.transcribe).2 = some t → t ≠ "" →
       forwardsOf (processMessage o msg).1 =
         [⟨"whatsapp", senderIdOf msg, groupTagOf jid ++ "[voice] " ++ t⟩]) := by
  constructor
  · intro body hb hbne
    simp [processMessage, hjid, hne, hbc, hfm, hb, truthy, hbne, forwardsOf_deliverReply,
      forwardToOpenClaw_payload]
  · intro t htr haud ht htne
    have htruthy : truthy (some t) = true := by simp [truthy, htne]
    simp [processMessage, hjid, hne, hbc, hfm, htr, haud, htruthy, ht,
      forwardsOf_append, forwardsOf_handleAudioMessage, forwardsOf_deliverReply,
      forwardToOpenClaw_payload]

theorem c3_witness :
    forwardsOf (processMessage sampleOracles
        ⟨⟨some "123@g.us", false, none⟩, some ⟨some "hello", none, none⟩⟩).1 =
      [⟨"whatsapp", "123@g.us", "[group:123@g.us] hello"⟩] ∧
    forwardsOf (processMessage
        ⟨.ok (some [1]), .ok (some "order status"), .ok ⟨none, none⟩, .ok ()⟩
        ⟨⟨some "123@g.us", false, none⟩, some ⟨none, none, some ()⟩⟩).1 =
      [⟨"whatsapp", "123@g.us", "[group:123@g.us] [voice] order status"⟩] := by
  constructor
  · have h := (c3_forwarded_content sampleOracles
      ⟨⟨some "123@g.us", false, none⟩, some ⟨some "hello", none, none⟩⟩ "123@g.us"
      rfl (by decide) (by decide) rfl).1 "hello" rfl (by decide)
    exact h.trans (by decide)
  · have h := (c3_forwarded_content
      ⟨.ok (some [1]), .ok (some "order status"), .ok ⟨none, none⟩, .ok ()⟩
      ⟨⟨some "123@g.us", false, none⟩, some ⟨none, none, some ()⟩⟩ "123@g.us"
      rfl (by decide) (by decide) rfl).2 "order status" (by decide) rfl (by decide) (by decide)
    exact h.trans (by decide)

/-- Claim C5: the transcription adapter returns null when the audio
download throws or yields a falsy/empty buffer (and then makes no
backend call), when the backend call throws, and when the trimmed `text`
field of the response is missing or empty; otherwise it returns the
trimmed text. A null transcription on the voice path yields no forward
and no send. -/
theorem c5_transcription_error_handling (d : Except Unit (Option (List Nat)))
    (b : Except Unit (Option String)) :
    ((d = Except.error () ∨ d = Except.ok none ∨ d = Except.ok (some [])) →
       (handleAudioMessage d b).2 = none ∧
       Effect.transcribePost ∉ (handleAudioMessage d b).1) ∧
    (b = Except.error () → (handleAudioMessage d b).2 = none) ∧
    (∀ s, b = Except.ok s → truthy (s.map jsTrim) = false →
       (handleAudioMessage d b).2 = none) ∧
    (∀ bytes s, d = Except.ok (some bytes) → bytes ≠ [] → b = Except.ok (some s) →
       jsTrim s ≠ "" → (handleAudioMessage d b).2 = some (jsTrim s)) ∧
    (∀ (o : Oracles) (msg : WebMessageInfo), o.download = d → o.transcribe = b →
       (handleAudioMessage d b).2 = none → truthy (textContentOf msg) = false →
       forwardsOf (processMessage o msg).1 = [] ∧ sendsOf (processMessage o msg).1 = []) := by
  refine ⟨?_, ?_, ?_, ?_, ?_⟩
  · rintro (rfl | rfl | rfl) <;> simp [handleAudioMessage]
  · rintro rfl
    rcases d with _ | _ | bytes
    · rfl
    · rfl
    · by_cases hb : bytes.length = 0 <;> simp [handleAudioMessage, hb]
  · rintro s rfl ht
    rcases d with _ | _ | bytes
    · rfl
    · rfl
    · by_cases hb : bytes.length = 0 <;> simp [handleAudioMessage, hb, ht]
  · rintro bytes s rfl hbne rfl htr
    have hb : bytes.length ≠ 0 := by simpa using hbne
    simp [handleAudioMessage, hb, truthy, htr]
  · intro o msg hd hb hnull htext
    rcases hm : msg.key.remoteJid with _ | jid
    · simp [processMessage, hm, forwardsOf, sendsOf]
    · by_cases h1 : jid = ""
      · simp [processMessage, hm, h1, forwardsOf, sendsOf]
      · by_cases h2 : jid = STATUS_BROADCAST
        · simp [processMessage, hm, h1, h2, forwardsOf, sendsOf]
        · by_cases h3 : msg.key.fromMe
          · simp [processMessage, hm, h1, h2, h3, forwardsOf, sendsOf]
          · rcases ha : msg.message.bind MessageContent.audioMessage with _ | u
            · simp [processMessage, hm, h1, h2, h3, htext, ha, forwardsOf, sendsOf]
            · have hfalse : truthy (handleAudioMessage o.download o.transcribe).2 = false := by
                rw [hd, hb, hnull]; rfl
              simp [processMessage, hm, h1, h2, h3, htext, ha, hfalse,
                forwardsOf_handleAudioMessage, sendsOf_handleAudioMessage]

theorem c5_witness :
    (handleAudioMessage (Except.ok (some [])) (Except.ok (some "x"))).2 = none ∧
    Effect.transcribePost ∉ (handleAudioMessage (Except.ok (some [])) (Except.ok (some "x"))).1 ∧
    (handleAudioMessage (Except.ok (some [1])) (Except.ok (some " hi "))).2 = some "hi" ∧
    forwardsOf (processMessage
        ⟨Except.ok (some []), Except.ok (some "x"), Except.ok ⟨some "r", none⟩, Except.ok ()⟩
        ⟨⟨some "v@s.net", false, none⟩, some ⟨none, none, some ()⟩⟩).1 = [] := by
  have h1 := (c5_transcription_error_handling (Except.ok (some [])) (Except.ok (some "x"))).1
    (Or.inr (Or.inr rfl))
  have h2 := (c5_transcription_error_handling (Except.ok (some [1]))
    (Except.ok (some " hi "))).2.2.2.1 [1] " hi " rfl (by decide) rfl (by decide)
  have h3 := (c5_transcription_error_handling (Except.ok (some [])) (Except.ok (some "x"))).2.2.2.2
    ⟨Except.ok (some []), Except.ok (some "x"), Except.ok ⟨some "r", none⟩, Except.ok ()⟩
    ⟨⟨some "v@s.net", false, none⟩, some ⟨none, none, some ()⟩⟩ rfl rfl h1.1 (by decide)
  exact ⟨h1.1, h1.2, h2.trans (by decide), h3.1⟩

/-- Claim C6: the forwarder builds exactly the payload
`{channel := "whatsapp", sender_id, content}`, returns the parsed body
on success and null on any error; and when it returns null the caller
issues no outbound send and no exception escapes the per-message
processing. -/
theorem c6_forwarder_error_handling :
    (∀ (sid content : String) (r : Except Unit BridgeResponse),
       (forwardToOpenClaw sid content r).1 = ⟨"whatsapp", sid, content⟩) ∧
    (∀ (sid content : String) (resp : BridgeResponse),
       (forwardToOpenClaw sid content (Except.ok resp)).2 = some resp) ∧
    (∀ sid content : String, (forwardToOpenClaw sid content (Except.error ())).2 = none) ∧
    (∀ (o : Oracles) (msg : WebMessageInfo), o.orch = Except.error () →
       sendsOf (processMessage o msg).1 = [] ∧ (processMessage o msg).2 = none) := by
  refine ⟨forwardToOpenClaw_payload, fun sid content resp => rfl, fun sid content => rfl, ?_⟩
  intro o msg h
  rcases hm : msg.key.remoteJid with _ | jid
  · simp [processMessage, hm, sendsOf]
  · by_cases h1 : jid = ""
    · simp [processMessage, hm, h1, sendsOf]
    · by_cases h2 : jid = STATUS_BROADCAST
      · simp [processMessage, hm, h1, h2, sendsOf]
      · by_cases h3 : msg.key.fromMe
        · simp [processMessage, hm, h1, h2, h3, sendsOf]
        · by_cases h4 : truthy (textContentOf msg)
          · simp [processMessage, hm, h1, h2, h3, h4, h, forwardToOpenClaw, deliverReply, sendsOf]
          · rcases ha : msg.message.bind MessageContent.audioMessage with _ | u
            · simp [processMessage, hm, h1, h2, h3, h4, ha, sendsOf]
            · by_cases h5 : truthy (handleAudioMessage o.download o.transcribe).2
              · simp [processMessage, hm, h1, h2, h3, h4, ha, h5, h, forwardToOpenClaw,
                  deliverReply, sendsOf_append, sendsOf_handleAudioMessage, sendsOf] <;>
                  (rcases handleAudioMessage_trace o.download o.transcribe with htr | htr <;>
                    simp [htr])
              · simp [processMessage, hm, h1, h2, h3, h4, ha, h5, sendsOf_handleAudioMessage]

theorem c6_witness :
    (forwardToOpenClaw "u@s.net" "hi" (Except.error ())).1 = ⟨"whatsapp", "u@s.net", "hi"⟩ ∧
    sendsOf (processMessage ⟨Except.ok none, Except.ok none, Except.error (), Except.ok ()⟩
      ⟨⟨some "u@s.net", false, none⟩, some ⟨some "hi", none, none⟩⟩).1 = [] ∧
    (processMessage ⟨Except.ok none, Except.ok none, Except.error (), Except.ok ()⟩
      ⟨⟨some "u@s.net", false, none⟩, some ⟨some "hi", none, none⟩⟩).2 = none := by
  have h1 := c6_forwarder_error_handling.1 "u@s.net" "hi" (Except.error ())
  have h2 := c6_forwarder_error_handling.2.2.2
    ⟨Except.ok none, Except.ok none, Except.error (), Except.ok ()⟩
    ⟨⟨some "u@s.net", false, none⟩, some ⟨some "hi", none, none⟩⟩ rfl
  exact ⟨h1, h2.1, h2.2⟩

/-- Claim C9: an event that passes the filters and carries both a truthy
text body and an audio payload takes only the text path: the text
content is the single forwarded payload and no media download and no
transcription-backend call occur. -/
theorem c9_text_precedence (o : Oracles) (msg : WebMessageInfo) (jid : String)
    (hjid : msg.key.remoteJid = some jid) (hne : jid ≠ "") (hbc : jid ≠ STATUS_BROADCAST)
    (hfm : msg.key.fromMe = false) (htext : truthy (textContentOf msg) = true)
    (haud : msg.message.bind MessageContent.audioMessage = some ()) :
    Effect.mediaDownload ∉ (processMessage o msg).1 ∧
    Effect.transcribePost ∉ (processMessage o msg).1 ∧
    forwardsOf (processMessage o msg).1 =
      [⟨"whatsapp", senderIdOf msg, groupTagOf jid ++ (textContentOf msg).getD ""⟩] := by
  have hpm : processMessage o msg =
      deliverReply o jid (forwardToOpenClaw (senderIdOf msg)
        (groupTagOf jid ++ (textContentOf msg).getD "") o.orch) := by
    simp [processMessage, hjid, hne, hbc, hfm, htext]
  rw [hpm]
  refine ⟨?_, ?_, by simp [forwardsOf_deliverReply, forwardToOpenClaw_payload]⟩
  · rcases deliverReply_trace o jid (forwardToOpenClaw (senderIdOf msg)
      (groupTagOf jid ++ (textContentOf msg).getD "") o.orch) with h | ⟨t, h⟩ <;> simp [h]
  · rcases deliverReply_trace o jid (forwardToOpenClaw (senderIdOf msg)
      (groupTagOf jid ++ (textContentOf msg).getD "") o.orch) with h | ⟨t, h⟩ <;> simp [h]

theorem c9_witness :
    Effect.mediaDownload ∉ (processMessage sampleOracles
      ⟨⟨some "7@g.us", false, none⟩, some ⟨some "hi", none, some ()⟩⟩).1 ∧
    Effect.transcribePost ∉ (processMessage sampleOracles
      ⟨⟨some "7@g.us", false, none⟩, some ⟨some "hi", none, some ()⟩⟩).1 ∧
    forwardsOf (processMessage sampleOracles
      ⟨⟨some "7@g.us", false, none⟩, some ⟨some "hi", none, some ()⟩⟩).1 =
      [⟨"whatsapp", "7@g.us", "[group:7@g.us] hi"⟩] := by
  have h := c9_text_precedence sampleOracles
    ⟨⟨some "7@g.us", false, none⟩, some ⟨some "hi", none, some ()⟩⟩ "7@g.us"
    rfl (by decide) (by decide) rfl (by decide) rfl
  exact ⟨h.1, h.2.1, h.2.2.trans (by decide)⟩

/-- Claim C10: an outbound reply send occurs exactly when a forward was
issued and the orchestrator reply parsed with a truthy `text` field, and
then it is a single send of that text to the originating conversation id
(the group id, not the resolved participant sender). -/
theorem c10_send_iff_reply_text (o : Oracles) (msg : WebMessageInfo) :
    sendsOf (processMessage o msg).1 =
      (if forwardsOf (processMessage o msg).1 = [] then []
       else
         match o.orch with
         | .ok r => if truthy r.text then [(msg.key.remoteJid.getD "", r.text.getD "")] else []
         | .error _ => []) := by
  rcases hm : msg.key.remoteJid with _ | jid
  · simp [processMessage, hm, sendsOf, forwardsOf]
  · by_cases h1 : jid = ""
    · simp [processMessage, hm, h1, sendsOf, forwardsOf]
    · by_cases h2 : jid = STATUS_BROADCAST
      · simp [processMessage, hm, h1, h2, sendsOf, forwardsOf]
      · by_cases h3 : msg.key.fromMe
        · simp [processMessage, hm, h1, h2, h3, sendsOf, forwardsOf]
        · by_cases h4 : truthy (textContentOf msg)
          · rcases ho : o.orch with _ | r
            · simp [processMessage, hm, h1, h2, h3, h4, ho, forwardToOpenClaw, deliverReply,
                sendsOf, forwardsOf]
            · by_cases h5 : truthy r.text
              · rcases hs : o.sendRes with _ | _ <;>
                  simp [processMessage, hm, h1, h2, h3, h4, ho, h5, hs, forwardToOpenClaw,
                    deliverReply, sendsOf, forwardsOf]
              · simp [processMessage, hm, h1, h2, h3, h4, ho, h5, forwardToOpenClaw,
                  deliverReply, sendsOf, forwardsOf]
          · rcases ha : msg.message.bind MessageContent.audioMessage with _ | u
            · simp [processMessage, hm, h1, h2, h3, h4, ha, sendsOf, forwardsOf]
            · by_cases h6 : truthy (handleAudioMessage o.download o.transcribe).2
              · rcases ho : o.orch with _ | r
                · simp [processMessage, hm, h1, h2, h3, h4, ha, h6, ho, forwardToOpenClaw,
                    deliverReply, sendsOf_append, forwardsOf_append,
                    sendsOf_handleAudioMessage, forwardsOf_handleAudioMessage,
                    sendsOf, forwardsOf] <;>
                    (rcases handleAudioMessage_trace o.download o.transcribe with htr | htr <;>
                      simp [htr])
                · by_cases h5 : truthy r.text
                  · rcases hs : o.sendRes with _ | _ <;>
                      simp [processMessage, hm, h1, h2, h3, h4, ha, h6, ho, h5, hs,
                        forwardToOpenClaw, deliverReply, sendsOf_append, forwardsOf_append,
                        sendsOf_handleAudioMessage, forwardsOf_handleAudioMessage,
                        sendsOf, forwardsOf] <;>
                      (rcases handleAudioMessage_trace o.download o.transcribe with htr | htr <;>
                        simp [htr])
                  · simp [processMessage, hm, h1, h2, h3, h4, ha, h6, ho, h5,
                      forwardToOpenClaw, deliverReply, sendsOf_append, forwardsOf_append,
                      sendsOf_handleAudioMessage, forwardsOf_handleAudioMessage,
                      sendsOf, forwardsOf] <;>
                      (rcases handleAudioMessage_trace o.download o.transcribe with htr | htr <;>
                        simp [htr])
              · simp [processMessage, hm, h1, h2, h3, h4, ha, h6,
                  sendsOf_handleAudioMessage, forwardsOf_handleAudioMessage]
